import Mathlib

/-!
Shallow embedding of the adaptive teaching-session backend
(`backend/graph.py` and the node modules it wires together) and proofs of
the spec claims about it.

Modelling conventions, used throughout:

* LangGraph nodes receive a state dict and return a partial update that is
  merged into the state.  Each node is embedded as a Lean function
  `TeachingState → TeachingState` (or `→ Except Unit TeachingState` when the
  Python body can raise), where the returned state is the merge of the
  node's partial update into its input — fields absent from the Python
  update are carried over unchanged, exactly as LangGraph merges them.
* Python floats are modelled as `ℚ` with exact decimal literals for the
  thresholds (`0.7` becomes `7/10`, and so on).
* Python ints are modelled as `ℕ` for the cursors (they are only ever
  incremented from 0) and as `ℤ` for MCQ answer indices.
* Calls to the external LLM (`llm.invoke` plus the `json.loads` of its
  response) are the oracle boundary: each oracle-calling node takes an extra
  argument describing the outcome of that boundary (raised / parsed value),
  and every theorem quantifies over all outcomes.
* `random.choice` calls (praise-message variety, simulated student answers)
  are modelled by an extra numeric argument selecting the choice; no
  verified property depends on it.
* `datetime.now()` is modelled by an extra `now : String` argument.
* Python value formatting inside presentation strings (`str()` of floats
  and dicts, `:.0f` / `:.0%` format specifiers) is approximated by `ℚ`
  printing helpers; no verified property depends on the rendered text of
  those log strings.
* Presentation-only state fields that no embedded node ever reads
  (`simulation_url`, `simulation_buttons`, `view_config`,
  `simulation_description`) are projected away from the state record.
-/

namespace SimTeach

/-! ## String helpers mirroring the Python string operations used -/

/-- Single-quote character, kept out of string literals. -/
def sqc : Char := Char.ofNat 39

/-- Single-quote as a one-character string. -/
def sq : String := String.mk [sqc]

/-- Wraps a string in single quotes, as Python f-strings like `'{name}'` do. -/
def quoteSq (s : String) : String := sq ++ s ++ sq

/-- Python `str.lower()`, restricted to the ASCII case mapping. -/
def pyLower (s : String) : String := String.mk (s.data.map Char.toLower)

/-- Characters Python `str.strip()` removes. -/
def isPySpace (c : Char) : Bool :=
  c == ' ' || c == '\t' || c == '\n' || c == '\r' || c == Char.ofNat 11 || c == Char.ofNat 12

/-- Python `str.strip()`: drop leading and trailing whitespace. -/
def pyStrip (s : String) : String :=
  String.mk (((s.data.dropWhile isPySpace).reverse.dropWhile isPySpace).reverse)

/-- Whether the first character list leads (is an initial segment of) the second. -/
def listLeading : List Char → List Char → Bool
  | [], _ => true
  | _ :: _, [] => false
  | a :: as, b :: bs => a == b && listLeading as bs

/-- Python substring test `needle in hay`. -/
def strContains (hay needle : String) : Bool :=
  (List.range (hay.data.length + 1)).any fun i => listLeading needle.data (hay.data.drop i)

/-- Python `random.choice`, with the random draw supplied by the caller as `pick`. -/
def pyChoice (pick : ℕ) (l : List String) : String :=
  (l.get? (pick % l.length)).getD ""

/-- Python values that occur inside takeaway parameter dictionaries. -/
inductive Val where
  | num (q : ℚ)
  | str (s : String)
  | bool (b : Bool)
  deriving Repr, DecidableEq

/-- Python `str()` of a parameter value (numeric rendering approximated via `ℚ`). -/
def pyStr : Val → String
  | .num q => toString q
  | .str s => s
  | .bool b => if b then "True" else "False"

/-- Python `repr()` of a parameter value, as used when a dict is formatted. -/
def pyRepr : Val → String
  | .num q => toString q
  | .str s => quoteSq s
  | .bool b => if b then "True" else "False"

/-- Python `str()` of a string-keyed dict, as rendered inside f-strings. -/
def pyDictRepr (l : List (String × Val)) : String :=
  "\x7b" ++ String.intercalate ", " (l.map fun p => quoteSq p.1 ++ ": " ++ pyRepr p.2) ++ "\x7d"

/-- Rendering used for Python `:.0f` formatting of a score (rounding approximated). -/
def fmtRound0 (q : ℚ) : String := toString (Int.floor (q + 1/2))

/-- Rendering used for Python `:.0%` formatting of a confidence. -/
def fmtPct (q : ℚ) : String := fmtRound0 (q * 100) ++ "%"

/-! ## Data model, mirroring `backend/state.py` -/

/-- Learner profile from `state.py` (`LearnerProfile`). -/
structure LearnerProfile where
  level : String
  calibre : String
  deriving Repr, DecidableEq

/-- Understanding status from `state.py` (`UnderstandingStatus`). -/
structure UnderstandingStatus where
  is_confused : Bool
  confidence_level : ℚ
  last_interaction_quality : String
  deriving Repr, DecidableEq

/-- A concept to teach, from `state.py` (`Concept`). -/
structure Concept where
  name : String
  description : String
  importance : String
  deriving Repr, DecidableEq

/-- A lesson takeaway as actually built at runtime by
`planner.parse_takeaways` / `planner.create_fallback_takeaways`.  The
runtime dicts carry no `concept` key (feedback falls back to the current
concept name), hence `concept : Option String`. -/
structure Takeaway where
  id : ℤ
  concept : Option String
  explanation : String
  parameters_to_vary : List String
  parameter_values : List (String × Val)
  display_mode : String
  before_state : Option (List (String × Val))
  after_state : Option (List (String × Val))
  probing_question : String
  deriving Repr, DecidableEq

/-- An interaction record, from `state.py` (`Interaction`). -/
structure Interaction where
  timestamp : String
  agent_message : String
  student_response : Option String
  understanding_status : Option UnderstandingStatus
  deriving Repr, DecidableEq

/-- A multiple-choice question, from `state.py` (`MCQ`). -/
structure MCQ where
  id : ℤ
  question : String
  options : List String
  correct_answer : ℤ
  explanation : String
  deriving Repr, DecidableEq

/-- Teaching-efficiency statistics computed by `assessment.calculate_teaching_stats`. -/
structure TeachingStats where
  total_interactions : ℕ
  concepts_taught : ℕ
  avg_interactions_per_concept : ℚ
  re_explain_rate : ℚ
  understanding_rate : ℚ
  deriving Repr, DecidableEq

/-- Assessment results, from `state.py` (`Assessment`); `teaching_stats` is the
extra key `summary_node` adds to the dict at runtime. -/
structure Assessment where
  total_questions : ℕ
  correct_answers : ℕ
  score_percentage : ℚ
  feedback : String
  recommended_next_level : Option String
  teaching_stats : Option TeachingStats
  deriving Repr, DecidableEq

/-- An extracted simulation parameter, from `state.py` (`SimulationParameter`)
as populated by `simulation_parser_node`. -/
structure SimParam where
  type : String
  html_id : Option String
  min : Option ℚ
  max : Option ℚ
  options : List String
  default : Option Val
  deriving Repr, DecidableEq

/-- The session state from `state.py` (`TeachingState`), restricted to the
fields some embedded node reads or writes.  `student_response` is the
transient field read by `probing_node` and written by the resume patch. -/
structure TeachingState where
  simulation_name : String
  learner_profile : LearnerProfile
  control_mode : String
  simulation_params : List (String × SimParam)
  concepts : List Concept
  current_concept_index : ℕ
  takeaways : List Takeaway
  current_takeaway_index : ℕ
  re_explain_count : ℕ
  interactions : List Interaction
  understanding_status : UnderstandingStatus
  student_response : Option String
  mcqs : List MCQ
  current_mcq_index : ℕ
  student_answers : List ℤ
  assessment : Option Assessment
  messages : List String
  feedback_message : Option String
  next_action : String
  error : Option String
  deriving Repr, DecidableEq

/-! ## Router node, from `backend/nodes/router.py` -/

/-- Decision logic of `router_node`: the `(next_action, reason)` pair chosen by
the three ordered branches. -/
def router_decision (s : TeachingState) : String × String :=
  if s.concepts.length ≤ s.current_concept_index then
    ("assess", "All concepts have been taught. Moving to assessment phase.")
  else if s.understanding_status.is_confused then
    ("re-explain", "Student is showing signs of confusion. Need to provide feedback and re-explanation.")
  else
    ("plan", "Student is progressing well. Continue with normal teaching flow.")

/-- Embeds `router.router_node`: pure conditional logic, returns only
`next_action` and a `messages` append. -/
def router_node (s : TeachingState) : TeachingState :=
  let d := router_decision s
  { s with next_action := d.1,
           messages := s.messages ++ ["Router: Decided to " ++ quoteSq d.1 ++ " - " ++ d.2] }

/-! ## Feedback node and its helpers, from `backend/nodes/teaching_loop.py` -/

/-- Maximum re-explanation attempts before moving on (`teaching_loop.py`). -/
def MAX_RE_EXPLAIN_ATTEMPTS : ℕ := 3

/-- The recurring Python snippet
`if idx < len(concepts): concepts[idx].get("name", default) else default`. -/
def concept_name_at (concepts : List Concept) (idx : ℕ) (d : String) : String :=
  match concepts.get? idx with
  | some c => c.name
  | none => d

/-- The probing question of the takeaway under the cursor, `""` when the
cursor is out of range (the takeaway context defaults of
`understanding_checker_node`). -/
def probing_question_at (takeaways : List Takeaway) (idx : ℕ) : String :=
  match takeaways.get? idx with
  | some t => t.probing_question
  | none => ""

/-- Python `current_takeaway.get("concept", default)` where `current_takeaway`
may be the empty dict (cursor out of range). -/
def tkConcept (ct : Option Takeaway) (d : String) : String :=
  match ct with
  | none => d
  | some t => t.concept.getD d

/-- Python `current_takeaway.get("explanation", default)` on a possibly-empty dict. -/
def tkExplanation (ct : Option Takeaway) (d : String) : String :=
  match ct with
  | none => d
  | some t => t.explanation

/-- Python `current_takeaway.get("parameters_to_vary", [])` on a possibly-empty dict. -/
def tkParameters (ct : Option Takeaway) : List String :=
  match ct with
  | none => []
  | some t => t.parameters_to_vary

/-- Embeds `teaching_loop.generate_praise_message`; `pick` supplies the
`random.choice` draw. -/
def generate_praise_message (pick : ℕ) (takeaway_concept : String) (learner_calibre : String) : String :=
  let praises :=
    if learner_calibre = "High IQ" then
      ["✅ Excellent! You" ++ sq ++ "ve got a solid grasp of " ++ takeaway_concept ++ ".",
       "✅ Perfect! Your understanding of " ++ takeaway_concept ++ " is clear.",
       "✅ Well done! You" ++ sq ++ "ve captured the essence of " ++ takeaway_concept ++ "."]
    else if learner_calibre = "Dull" then
      ["🌟 Fantastic job! You really understood " ++ takeaway_concept ++ "! Keep it up!",
       "🌟 Amazing work! You" ++ sq ++ "re doing great with " ++ takeaway_concept ++ "!",
       "🌟 Wonderful! You" ++ sq ++ "re making excellent progress on " ++ takeaway_concept ++ "!"]
    else
      ["✅ Great job! You understood " ++ takeaway_concept ++ " well.",
       "✅ Nice work! You" ++ sq ++ "ve got " ++ takeaway_concept ++ " figured out.",
       "✅ Good! You clearly understand " ++ takeaway_concept ++ "."]
  pyChoice pick praises

/-- Embeds `teaching_loop.generate_hint`. -/
def generate_hint (current_takeaway : Option Takeaway) (takeaway_concept : String) : String :=
  let explanation := tkExplanation current_takeaway ""
  let parameters := tkParameters current_takeaway
  if parameters ≠ [] then
    let params_str := String.intercalate ", " (parameters.take 2)
    "Focus on what happens when you change " ++ params_str ++ ". What relationship do you see?"
  else if explanation ≠ "" then
    let fs := (explanation.splitOn ".").headD ""
    let fs := if 100 < fs.length then fs.take 100 ++ "..." else fs
    "Think about this: " ++ fs
  else
    "Think about how " ++ takeaway_concept ++ " changes when you adjust the controls."

/-- Embeds `teaching_loop.generate_simpler_explanation`. -/
def generate_simpler_explanation (current_takeaway : Option Takeaway) (attempt_number : ℕ) : String :=
  let original_explanation := tkExplanation current_takeaway ("Let" ++ sq ++ "s try again.")
  let concept := tkConcept current_takeaway "this concept"
  let parameters := tkParameters current_takeaway
  if attempt_number = 0 then
    match parameters with
    | p0 :: _ =>
        "Let" ++ sq ++ "s focus on just one thing: When you change " ++ quoteSq p0 ++
          ", what happens? Watch carefully!"
    | [] =>
        "Let" ++ sq ++ "s simplify: " ++ (original_explanation.splitOn ".").headD "" ++
          ". Just observe this one thing."
  else if attempt_number = 1 then
    "Think of " ++ concept ++ " like a cause-and-effect relationship. When you change something on the left side, what changes on the right? It" ++ sq ++ "s like turning up the heat - the temperature rises!"
  else
    "Let" ++ sq ++ "s make it super simple: Just watch what moves or changes when you interact with the simulation. Don" ++ sq ++ "t worry about " ++ quoteSq "why" ++ " yet - just observe " ++ quoteSq "what" ++ " happens!"

/-- The 4-tuple returned by the three `handle_*` helpers of the feedback node. -/
structure FeedbackDecision where
  feedback_message : String
  next_action : String
  new_takeaway_idx : ℕ
  new_re_explain_count : ℕ
  deriving Repr, DecidableEq

/-- Embeds `teaching_loop.handle_understood`. -/
def handle_understood (pick : ℕ) (current_takeaway_idx : ℕ) (total_takeaways : ℕ)
    (takeaway_concept : String) (learner_calibre : String) : FeedbackDecision :=
  let praise_messages := generate_praise_message pick takeaway_concept learner_calibre
  let new_takeaway_idx := current_takeaway_idx + 1
  if total_takeaways ≤ new_takeaway_idx then
    { feedback_message := praise_messages ++ "\n\n🎉 You" ++ sq ++
        "ve completed all the takeaways for this concept! Let" ++ sq ++ "s move on.",
      next_action := "concept_complete",
      new_takeaway_idx := new_takeaway_idx,
      new_re_explain_count := 0 }
  else
    { feedback_message := praise_messages ++ "\n\n➡️ Let" ++ sq ++ "s move to the next takeaway!",
      next_action := "next_takeaway",
      new_takeaway_idx := new_takeaway_idx,
      new_re_explain_count := 0 }

/-- Embeds `teaching_loop.handle_partial` (Lean name carries a `_path` suffix). -/
def handle_partial_path (current_takeaway : Option Takeaway) (current_takeaway_idx : ℕ)
    (takeaway_concept : String) (re_explain_count : ℕ) (total_takeaways : ℕ) : FeedbackDecision :=
  if MAX_RE_EXPLAIN_ATTEMPTS ≤ re_explain_count then
    let new_takeaway_idx := current_takeaway_idx + 1
    { feedback_message := "👍 You" ++ sq ++ "re getting there with " ++ takeaway_concept ++
        "!\n\nLet" ++ sq ++ "s move forward - sometimes the next concept helps clarify things.",
      next_action := if total_takeaways ≤ new_takeaway_idx then "concept_complete" else "next_takeaway",
      new_takeaway_idx := new_takeaway_idx,
      new_re_explain_count := 0 }
  else
    let hint := generate_hint current_takeaway takeaway_concept
    { feedback_message := "🤔 You" ++ sq ++ "re on the right track!\n\n💡 **Hint:** " ++ hint ++
        "\n\nLet me ask you again...",
      next_action := "re_probe",
      new_takeaway_idx := current_takeaway_idx,
      new_re_explain_count := re_explain_count + 1 }

/-- Embeds `teaching_loop.handle_confused`. -/
def handle_confused (current_takeaway : Option Takeaway) (current_takeaway_idx : ℕ)
    (total_takeaways : ℕ) (takeaway_concept : String) (re_explain_count : ℕ) : FeedbackDecision :=
  if MAX_RE_EXPLAIN_ATTEMPTS ≤ re_explain_count then
    let new_takeaway_idx := current_takeaway_idx + 1
    { feedback_message := "😊 That" ++ sq ++ "s okay! " ++ takeaway_concept ++
        " can be tricky.\n\nLet" ++ sq ++ "s come back to this later. For now, let" ++ sq ++
        "s continue and things might become clearer.",
      next_action := if total_takeaways ≤ new_takeaway_idx then "concept_complete" else "next_takeaway",
      new_takeaway_idx := new_takeaway_idx,
      new_re_explain_count := 0 }
  else
    let simpler_explanation := generate_simpler_explanation current_takeaway re_explain_count
    { feedback_message := "🔄 No worries! Let me explain this differently...\n\n💡 " ++
        simpler_explanation ++ "\n\nTake a moment to observe the simulation again.",
      next_action := "re_explain",
      new_takeaway_idx := current_takeaway_idx,
      new_re_explain_count := re_explain_count + 1 }

/-- Embeds the dispatch of `feedback_node` (teaching_loop.py lines 1092–1118):
Path 1 Understood if `not is_confused and confidence_level >= 0.7`, Path 2
Partial if `not is_confused and confidence_level >= 0.4`, Path 3 Confused
otherwise. -/
def feedback_decision (pick : ℕ) (us : UnderstandingStatus) (current_takeaway : Option Takeaway)
    (current_takeaway_idx : ℕ) (total_takeaways : ℕ) (takeaway_concept : String)
    (re_explain_count : ℕ) (learner_calibre : String) : FeedbackDecision :=
  if us.is_confused = false ∧ 7/10 ≤ us.confidence_level then
    handle_understood pick current_takeaway_idx total_takeaways takeaway_concept learner_calibre
  else if us.is_confused = false ∧ 4/10 ≤ us.confidence_level then
    handle_partial_path current_takeaway current_takeaway_idx takeaway_concept re_explain_count
      total_takeaways
  else
    handle_confused current_takeaway current_takeaway_idx total_takeaways takeaway_concept
      re_explain_count

/-- Neutral understanding status installed at a concept boundary
(`feedback_node`, teaching_loop.py lines 1150–1154). -/
def neutralStatus : UnderstandingStatus :=
  { is_confused := false, confidence_level := 1/2, last_interaction_quality := "neutral" }

/-- Embeds `teaching_loop.feedback_node`: dispatch to the three handlers, merge
of the returned update, plus the concept-boundary reset when the decision is
`concept_complete`. -/
def feedback_node (pick : ℕ) (s : TeachingState) : TeachingState :=
  let current_concept_name := concept_name_at s.concepts s.current_concept_index "the concept"
  let current_takeaway := s.takeaways.get? s.current_takeaway_index
  let takeaway_concept := tkConcept current_takeaway current_concept_name
  let d := feedback_decision pick s.understanding_status current_takeaway
      s.current_takeaway_index s.takeaways.length takeaway_concept
      s.re_explain_count s.learner_profile.calibre
  let result :=
    { s with feedback_message := some d.feedback_message,
             next_action := d.next_action,
             current_takeaway_index := d.new_takeaway_idx,
             re_explain_count := d.new_re_explain_count,
             messages := s.messages ++ ["Feedback: " ++ d.feedback_message.take 100 ++ "..."] }
  if d.next_action = "concept_complete" then
    { result with current_concept_index := s.current_concept_index + 1,
                  current_takeaway_index := 0,
                  takeaways := [],
                  re_explain_count := 0,
                  understanding_status := neutralStatus }
  else
    result

/-- Embeds `teaching_loop.route_after_feedback`. -/
def route_after_feedback (s : TeachingState) : String :=
  if s.next_action = "next_takeaway" then "teaching"
  else if s.next_action = "re_explain" then "teaching"
  else if s.next_action = "re_probe" then "probing"
  else if s.next_action = "concept_complete" then "router"
  else "teaching"

/-! ## Probing node, from `backend/nodes/teaching_loop.py` -/

/-- Embeds `teaching_loop.build_probing_message`. -/
def build_probing_message (probing_question : String) (takeaway_num : ℕ)
    (total_takeaways : ℕ) (concept_name : String) : String :=
  let n := toString takeaway_num
  let t := toString total_takeaways
  String.intercalate "\n"
    ["❓ **Question** (Takeaway " ++ n ++ "/" ++ t ++ ")",
     "",
     "Based on what you observed about *" ++ concept_name ++ "*:",
     "",
     "**" ++ probing_question ++ "**",
     "",
     "💭 Take your time to think, then share your answer."]

/-- Embeds `teaching_loop.create_interaction_record`; `now` supplies
`datetime.now().strftime(...)`. -/
def create_interaction_record (now : String) (agent_message : String)
    (student_response : String) : Interaction :=
  { timestamp := now,
    agent_message := agent_message,
    student_response := some student_response,
    understanding_status := none }

/-- Embeds `teaching_loop.probing_node`.  The Python guard
`not takeaways or current_takeaway_idx >= len(takeaways)` is exactly the case
where `takeaways.get? current_takeaway_index` is `none`. -/
def probing_node (now : String) (s : TeachingState) : TeachingState :=
  let current_concept_name := concept_name_at s.concepts s.current_concept_index "Unknown Concept"
  match s.takeaways.get? s.current_takeaway_index with
  | none =>
      { s with error := some "No takeaway available for probing question",
               next_action := "router",
               messages := s.messages ++ ["Probing: Error - No takeaway available"] }
  | some current_takeaway =>
      let agent_message := build_probing_message current_takeaway.probing_question
          (s.current_takeaway_index + 1) s.takeaways.length current_concept_name
      match s.student_response with
      | none =>
          { s with messages := s.messages ++ [agent_message],
                   next_action := "wait_for_response" }
      | some student_response =>
          let new_interaction := create_interaction_record now agent_message student_response
          { s with interactions := s.interactions ++ [new_interaction],
                   next_action := "check_understanding",
                   messages := s.messages ++ [agent_message],
                   student_response := none }

/-! ## Understanding checker, from `backend/nodes/teaching_loop.py` -/

/-- Confusion indicator phrases of `fallback_understanding_analysis`. -/
def confusion_phrases : List String :=
  ["i don" ++ sq ++ "t know", "idk", "not sure", "confused", "don" ++ sq ++ "t understand",
   "can you explain", "what do you mean", "huh", "?", "i" ++ sq ++ "m lost"]

/-- Positive-engagement phrases of `fallback_understanding_analysis`. -/
def positive_phrases : List String :=
  ["i see", "i understand", "makes sense", "got it", "yes",
   "the", "when", "because", "so", "it"]

/-- Result triple of the understanding analysis. -/
structure UnderstandingResult where
  classification : String
  confidence : ℚ
  reasoning : String
  deriving Repr, DecidableEq

/-- Embeds `teaching_loop.fallback_understanding_analysis`: first matching
confusion phrase wins; then the short-response check; then the
positive-engagement check. -/
def fallback_understanding_analysis (student_response : String)
    (probing_question : String) : UnderstandingResult :=
  let response_lower := pyStrip (pyLower student_response)
  match confusion_phrases.find? (fun phrase => strContains response_lower phrase) with
  | some phrase =>
      { classification := "confused", confidence := 6/10,
        reasoning := "Response contains confusion indicator: " ++ quoteSq phrase }
  | none =>
    if response_lower.length < 5 then
      { classification := "partial", confidence := 4/10,
        reasoning := "Response is very short, unclear if understood" }
    else
      let positive_count := positive_phrases.countP (fun phrase => strContains response_lower phrase)
      if 2 ≤ positive_count ∧ 20 < response_lower.length then
        { classification := "understood", confidence := 6/10,
          reasoning := "Response shows engagement and reasonable length" }
      else
        { classification := "partial", confidence := 1/2,
          reasoning := "Fallback analysis - unable to determine with confidence" }

/-- Outcome of `json.loads` on the (fence-stripped) LLM reply inside
`parse_understanding_response`; `jsonFail` also covers the `KeyError` and
`TypeError` cases handled by the same `except` clause. -/
inductive UnderstandingJson where
  | jsonFail
  | jsonOk (classification : Option String) (confidence : Option ℚ) (reasoning : Option String)
  deriving Repr, DecidableEq

/-- Embeds `teaching_loop.parse_understanding_response`, with the `json.loads`
boundary abstracted into `j` and the raw reply text kept for the
text-extraction fallback. -/
def parse_understanding_response (j : UnderstandingJson) (response_text : String) :
    UnderstandingResult :=
  match j with
  | .jsonOk rawClassification rawConfidence rawReasoning =>
      let classification := pyLower (rawClassification.getD "partial")
      let classification :=
        if classification ∈ ["understood", "partial", "confused"] then classification
        else "partial"
      let confidence := max 0 (min 1 (rawConfidence.getD (1/2)))
      { classification := classification, confidence := confidence,
        reasoning := rawReasoning.getD "Analysis completed." }
  | .jsonFail =>
      let text_lower := pyLower response_text
      if strContains text_lower "understood" then
        { classification := "understood", confidence := 7/10,
          reasoning := "Extracted from text response" }
      else if strContains text_lower "confused" then
        { classification := "confused", confidence := 7/10,
          reasoning := "Extracted from text response" }
      else
        { classification := "partial", confidence := 1/2,
          reasoning := "Could not parse response, defaulting to partial" }

/-- Outcome of the LLM boundary in `understanding_checker_node`: either the
`try` block raised before producing a reply (`llmError`, which is what routes
to the heuristic fallback), or the LLM replied with `text` whose JSON parse
outcome is `j`. -/
inductive CheckerOracle where
  | llmError
  | llmOk (j : UnderstandingJson) (text : String)
  deriving Repr, DecidableEq

/-- Understanding analysis chosen by the `try`/`except` of
`understanding_checker_node`. -/
def checker_result (o : CheckerOracle) (student_response : String)
    (probing_question : String) : UnderstandingResult :=
  match o with
  | .llmOk j text => parse_understanding_response j text
  | .llmError => fallback_understanding_analysis student_response probing_question

/-- Quality tag derived from a classification
(`understanding_checker_node`, teaching_loop.py 764–769). -/
def interaction_quality (classification : String) : String :=
  if classification = "understood" then "good"
  else if classification = "confused" then "poor"
  else "neutral"

/-- Embeds `teaching_loop.understanding_checker_node`.  The no-interactions
branch returns the error update (leaving `interactions` and `messages`
untouched); otherwise the chosen analysis is mapped to an
`UnderstandingStatus` and written back into the latest interaction. -/
def understanding_checker_node (o : CheckerOracle) (s : TeachingState) : TeachingState :=
  match s.interactions.getLast? with
  | none =>
      { s with error := some "No interactions available for analysis",
               next_action := "feedback",
               understanding_status :=
                 { is_confused := false, confidence_level := 1/2,
                   last_interaction_quality := "neutral" } }
  | some latest_interaction =>
      let student_response := (latest_interaction.student_response).getD ""
      let probing_question := probing_question_at s.takeaways s.current_takeaway_index
      let understanding_result := checker_result o student_response probing_question
      let classification := understanding_result.classification
      let confidence := understanding_result.confidence
      let us : UnderstandingStatus :=
        { is_confused := classification == "confused",
          confidence_level := confidence,
          last_interaction_quality := interaction_quality classification }
      { s with understanding_status := us,
               interactions := s.interactions.dropLast ++
                 [{ latest_interaction with understanding_status := some us }],
               next_action := "feedback",
               messages := s.messages ++
                 ["Understanding Checker: Student shows " ++ quoteSq classification ++
                  " understanding (confidence: " ++ fmtPct confidence ++ ")"] }

/-! ## Planner node, from `backend/nodes/planner.py` -/

/-- A raw takeaway dict as decoded from the oracle's JSON array: each field is
`none` when the key is missing (or JSON `null`). -/
structure RawTakeaway where
  id : Option ℤ
  explanation : Option String
  parameters_to_vary : Option (List String)
  parameter_values : Option (List (String × Val))
  display_mode : Option String
  before_state : Option (List (String × Val))
  after_state : Option (List (String × Val))
  probing_question : Option String
  deriving Repr, DecidableEq

/-- Python truthiness of an optional dict: present and non-empty. -/
def truthyDict (d : Option (List (String × Val))) : Bool :=
  match d with
  | some l => !l.isEmpty
  | none => false

/-- Validation of one raw takeaway (`parse_takeaways`, planner.py 445–462),
including the repair rule that copies a truthy `after_state` into an empty
`parameter_values`. -/
def validate_takeaway (i : ℕ) (t : RawTakeaway) : Takeaway :=
  let pv := t.parameter_values.getD []
  let pv :=
    if pv = [] ∧ truthyDict t.after_state then
      t.after_state.getD []
    else pv
  { id := t.id.getD (i : ℤ),
    concept := none,
    explanation := t.explanation.getD "",
    parameters_to_vary := t.parameters_to_vary.getD [],
    parameter_values := pv,
    display_mode := t.display_mode.getD "single",
    before_state := t.before_state,
    after_state := t.after_state,
    probing_question := t.probing_question.getD "Do you understand this concept?" }

/-- Validation loop of `parse_takeaways`: `enumerate(takeaways, 1)`, skipping
non-dict items (`none`) while still advancing the enumeration index. -/
def validate_takeaways : ℕ → List (Option RawTakeaway) → List Takeaway
  | _, [] => []
  | i, none :: rest => validate_takeaways (i + 1) rest
  | i, some t :: rest => validate_takeaway i t :: validate_takeaways (i + 1) rest

/-- Outcome of `json.loads` on the (fence-stripped) planner reply. -/
inductive TakeawayJson where
  | malformed
  | notList
  | list (items : List (Option RawTakeaway))
  deriving Repr, DecidableEq

/-- Embeds `planner.parse_takeaways`: a `json.JSONDecodeError` is re-raised
(the `return []` after the `raise e` at planner.py 469 is unreachable), a
non-list JSON value yields `[]`, and a list is validated item by item. -/
def parse_takeaways (j : TakeawayJson) : Except Unit (List Takeaway) :=
  match j with
  | .malformed => Except.error ()
  | .notList => Except.ok []
  | .list items => Except.ok (validate_takeaways 1 items)

/-- Outcome of the oracle boundary in `planner_node`. -/
inductive PlannerOracle where
  | initError
  | invokeError
  | response (j : TakeawayJson)
  deriving Repr, DecidableEq

/-- Embeds `planner.create_fallback_takeaways`. -/
def create_fallback_takeaways (concept : Concept)
    (simulation_params : List (String × SimParam)) : List Takeaway :=
  let param_names := (simulation_params.map Prod.fst).take 3
  [{ id := 1,
     concept := none,
     explanation := "Understanding " ++ concept.name ++ ": " ++ concept.description,
     parameters_to_vary := param_names.take 1,
     parameter_values := [],
     display_mode := "single",
     before_state := none,
     after_state := none,
     probing_question := "What do you observe about " ++ concept.name ++ "?" },
   { id := 2,
     concept := none,
     explanation := "Let" ++ sq ++ "s explore how different parameters affect " ++
       concept.name ++ ".",
     parameters_to_vary :=
       if 1 < param_names.length then (param_names.drop 1).take 1 else param_names,
     parameter_values := [],
     display_mode := "single",
     before_state := none,
     after_state := none,
     probing_question := "How does changing this parameter affect the outcome?" }]

/-- Embeds `planner.planner_node`.  `Except.error` models an uncaught Python
exception escaping the node.  Note the `raise e` at planner.py 156: the
fallback `return` after it is unreachable, so the invoke failure and the JSON
parse failure both propagate out of the node. -/
def planner_node (o : PlannerOracle) (s : TeachingState) : Except Unit TeachingState :=
  if s.concepts.length ≤ s.current_concept_index then
    Except.ok { s with error := some "No concept available at current index",
                       next_action := "assess" }
  else
    match o with
    | .initError => Except.error ()
    | .invokeError => Except.error ()
    | .response j =>
        match parse_takeaways j with
        | Except.error () => Except.error ()
        | Except.ok parsed =>
            let current_concept := (s.concepts.get? s.current_concept_index).getD
              { name := "", description := "", importance := "" }
            let takeaways :=
              if parsed = [] then create_fallback_takeaways current_concept s.simulation_params
              else parsed
            let n := toString takeaways.length
            Except.ok { s with takeaways := takeaways,
                               current_takeaway_index := 0,
                               next_action := "teach",
                               messages := s.messages ++
                                 ["Planner: Generated " ++ n ++ " takeaways for " ++
                                  quoteSq current_concept.name] }

/-! ## Teaching node, from `backend/nodes/teaching_loop.py` -/

/-- Python dict lookup on the (string-keyed) value dicts. -/
def dictGet (l : List (String × Val)) (k : String) : Option Val :=
  (l.find? (fun p => p.1 == k)).map Prod.snd

/-- Python dict lookup on the parameter catalog. -/
def paramGet (l : List (String × SimParam)) (k : String) : Option SimParam :=
  (l.find? (fun p => p.1 == k)).map Prod.snd

/-- Embeds `teaching_loop.generate_manual_instructions` (parameter-value
rendering approximated by `pyStr`).  A key can only be present in a non-empty
dict, so the Python guard `target_values and param_name in target_values`
is the lookup succeeding. -/
def generate_manual_instructions (parameters_to_vary : List String)
    (simulation_params : List (String × SimParam))
    (target_values : List (String × Val)) : String :=
  if parameters_to_vary = [] then
    "Explore the simulation and observe the current state."
  else
    let instructions := parameters_to_vary.map fun param_name =>
      let param_info := paramGet simulation_params param_name
      let param_type := (param_info.map (·.type)).getD "unknown"
      match dictGet target_values param_name with
      | some target_val =>
          "Set " ++ quoteSq param_name ++ " to " ++ pyStr target_val
      | none =>
        if param_type = "range" then
          let mn := toString ((param_info.bind (·.min)).getD 0)
          let mx := toString ((param_info.bind (·.max)).getD 100)
          "Adjust the " ++ quoteSq param_name ++ " slider (range: " ++ mn ++ " to " ++ mx ++ ")"
        else if param_type = "select" then
          let options := (param_info.map (·.options)).getD []
          if options ≠ [] then
            "Try different options in " ++ quoteSq param_name ++ ": " ++
              String.intercalate ", " (options.take 3)
          else
            "Change the " ++ quoteSq param_name ++ " dropdown"
        else if param_type = "number" then
          "Enter a value for " ++ quoteSq param_name
        else if param_type = "checkbox" then
          "Toggle the " ++ quoteSq param_name ++ " checkbox"
        else
          "Adjust " ++ quoteSq param_name
    "👉 " ++ String.intercalate "\n👉 " instructions

/-- Embeds `teaching_loop.generate_before_instructions`. -/
def generate_before_instructions (parameters_to_vary : List String)
    (simulation_params : List (String × SimParam))
    (before_state : Option (List (String × Val))) : String :=
  if truthyDict before_state then
    let parts := (before_state.getD []).map fun p =>
      "Set " ++ quoteSq p.1 ++ " to " ++ pyStr p.2
    "BEFORE State:\n👉 " ++ String.intercalate "\n👉 " parts
  else
    "BEFORE State:\n👉 Start with the default values"

/-- Embeds `teaching_loop.generate_after_instructions`. -/
def generate_after_instructions (parameters_to_vary : List String)
    (simulation_params : List (String × SimParam))
    (after_state : Option (List (String × Val))) : String :=
  if truthyDict after_state then
    let parts := (after_state.getD []).map fun p =>
      "Set " ++ quoteSq p.1 ++ " to " ++ pyStr p.2
    "AFTER State:\n👉 " ++ String.intercalate "\n👉 " parts
  else
    "AFTER State:\n" ++ generate_manual_instructions parameters_to_vary simulation_params []

/-- Embeds `teaching_loop.build_agent_message`. -/
def build_agent_message (explanation : String) (control_mode : String) (display_mode : String)
    (parameters_to_vary : List String) (parameter_values : List (String × Val))
    (before_state : Option (List (String × Val))) (after_state : Option (List (String × Val)))
    (simulation_params : List (String × SimParam)) (takeaway_num : ℕ)
    (total_takeaways : ℕ) : String :=
  let n := toString takeaway_num
  let t := toString total_takeaways
  let header := ["📖 **Takeaway " ++ n ++ " of " ++ t ++ "**", "", explanation, ""]
  let body :=
    if control_mode = "MANUAL" then
      if display_mode = "single" then
        ["**Try this in the simulation:**",
         generate_manual_instructions parameters_to_vary simulation_params parameter_values]
      else
        ["**Compare these two states:**", "",
         generate_before_instructions parameters_to_vary simulation_params before_state, "",
         generate_after_instructions parameters_to_vary simulation_params after_state]
    else
      if display_mode = "single" then
        ["**Watch the simulation** - I" ++ sq ++ "ve set the parameters for you."] ++
          (if parameter_values ≠ [] then
            ["   Parameters set: " ++ pyDictRepr parameter_values] else [])
      else
        ["**Compare these two states** - I" ++ sq ++ "ve set both views for you."] ++
          (if truthyDict before_state then
            ["   Before: " ++ pyDictRepr (before_state.getD [])] else []) ++
          (if truthyDict after_state then
            ["   After: " ++ pyDictRepr (after_state.getD [])] else [])
  String.intercalate "\n"
    (header ++ body ++
     ["", "👁️ Take a moment to observe, then I" ++ sq ++ "ll ask you a question."])

/-- Placeholder takeaway used only as the default of an unreachable lookup. -/
def dummyTakeaway : Takeaway :=
  { id := 0, concept := none, explanation := "", parameters_to_vary := [],
    parameter_values := [], display_mode := "", before_state := none, after_state := none,
    probing_question := "" }

/-- Embeds `teaching_loop.teaching_node`.  The written `view_config` is a
presentation-only field projected away from the state model; in the present
branch the two preceding guards make the `dummyTakeaway` default unreachable. -/
def teaching_node (s : TeachingState) : TeachingState :=
  let current_concept_name := concept_name_at s.concepts s.current_concept_index "Unknown Concept"
  if s.takeaways = [] then
    { s with error := some "No takeaways available. Planner node may have failed.",
             next_action := "router",
             messages := s.messages ++ ["Teaching: Error - No lesson plan available"] }
  else if s.takeaways.length ≤ s.current_takeaway_index then
    { s with current_concept_index := s.current_concept_index + 1,
             current_takeaway_index := 0,
             takeaways := [],
             next_action := "router",
             messages := s.messages ++
               ["Teaching: Completed all takeaways for " ++ quoteSq current_concept_name ++
                ". Moving to next concept."] }
  else
    let tk := (s.takeaways.get? s.current_takeaway_index).getD dummyTakeaway
    let agent_message := build_agent_message tk.explanation s.control_mode tk.display_mode
        tk.parameters_to_vary tk.parameter_values tk.before_state tk.after_state
        s.simulation_params (s.current_takeaway_index + 1) s.takeaways.length
    { s with next_action := "probe",
             messages := s.messages ++ [agent_message] }

/-! ## Ingestion nodes, from `backend/nodes/ingestion.py` -/

/-- Embeds `ingestion.simulation_ingest_node`.  The `config.py` URL lookup is
abstracted as `lookup` (`none` models the `ValueError` on an unknown
simulation) and the configured control mode as `mode`; `Except.error` models
the raised `ValueError`s.  Written fields outside the state model
(`simulation_url`, `simulation_description`, `view_config`) are dropped, and
`simulation_name` is rewritten with its own value. -/
def simulation_ingest_node (lookup : Option String) (mode : String) (s : TeachingState) :
    Except Unit TeachingState :=
  if s.simulation_name = "" then Except.error ()
  else
    match lookup with
    | none => Except.error ()
    | some _url =>
        Except.ok { s with control_mode := mode,
                           concepts := [],
                           current_concept_index := 0,
                           interactions := [],
                           assessment := none }

/-- Embeds `ingestion.simulation_parser_node`: every branch returns only the
extracted `simulation_params` (plus buttons, projected away).  The HTML
fetch/parse pipeline is abstracted as `extracted`, with `none` covering all
the branches that return an empty parameter dict. -/
def simulation_parser_node (extracted : Option (List (String × SimParam)))
    (s : TeachingState) : TeachingState :=
  { s with simulation_params := extracted.getD [] }

/-- Outcome of the oracle boundary in `concept_extractor_node`. -/
inductive ConceptOracle where
  | initError
  | invokeOrParseError
  | ok (concepts : List Concept)
  deriving Repr, DecidableEq

/-- Embeds `ingestion.concept_extractor_node`.  The LLM-init failure branch
returns only placeholder `concepts` (it does not reset
`current_concept_index`); the other branches also set the cursor to 0. -/
def concept_extractor_node (o : ConceptOracle) (s : TeachingState) : TeachingState :=
  match o with
  | .initError =>
      let c : Concept :=
        { name := "Concept from " ++ s.simulation_name, description := "Placeholder",
          importance := "high" }
      { s with concepts := [c] }
  | .invokeOrParseError =>
      let c : Concept :=
        { name := "Understanding " ++ s.simulation_name,
          description := "Basic principles of " ++ s.simulation_name ++ " simulation",
          importance := "high" }
      { s with concepts := [c], current_concept_index := 0 }
  | .ok concepts =>
      { s with concepts := concepts, current_concept_index := 0 }

/-! ## Assessment-phase nodes, from `backend/nodes/assessment.py` -/

/-- Minimum number of MCQs (`assessment.py`). -/
def MIN_MCQS : ℕ := 3

/-- Maximum number of MCQs (`assessment.py`). -/
def MAX_MCQS : ℕ := 5

/-- A raw MCQ dict as decoded from the oracle's JSON; `none` fields are
missing keys, and a non-integer `correct_answer` behaves like a missing one
(both are forced to 0 by the `isinstance`/range check). -/
structure RawMCQ where
  id : Option ℤ
  question : Option String
  options : Option (List Val)
  correct_answer : Option ℤ
  explanation : Option String
  deriving Repr, DecidableEq

/-- Embeds `assessment.validate_mcq`; `none` is the Python `None` returned
for an invalid MCQ. -/
def validate_mcq (mcq : RawMCQ) (default_id : ℕ) : Option MCQ :=
  let question := pyStrip (mcq.question.getD "")
  let options := mcq.options.getD []
  let correct_answer := mcq.correct_answer.getD 0
  if question = "" then none
  else if options.length < 2 then none
  else
    let correct_answer :=
      if correct_answer < 0 ∨ (options.length : ℤ) ≤ correct_answer then 0 else correct_answer
    some { id := mcq.id.getD (default_id : ℤ),
           question := question,
           options := options.map pyStr,
           correct_answer := correct_answer,
           explanation := mcq.explanation.getD "See the lesson for more details." }

/-- Validation loop of `parse_mcq_response`: `enumerate(mcqs)` passing
`i + 1` as the default id, keeping only the valid ones. -/
def validate_mcqs : ℕ → List RawMCQ → List MCQ
  | _, [] => []
  | i, m :: rest =>
      match validate_mcq m (i + 1) with
      | some v => v :: validate_mcqs (i + 1) rest
      | none => validate_mcqs (i + 1) rest

/-- Outcome of `json.loads` inside `parse_mcq_response`. -/
inductive McqJson where
  | malformed
  | ok (mcqs : List RawMCQ)
  deriving Repr, DecidableEq

/-- Embeds `assessment.parse_mcq_response` (its `expected_count` argument is
unused in the Python body as well). -/
def parse_mcq_response (j : McqJson) (expected_count : ℕ) : List MCQ :=
  match j with
  | .malformed => []
  | .ok mcqs => validate_mcqs 0 mcqs

/-- Embeds `assessment.generate_fallback_mcqs`. -/
def generate_fallback_mcqs (concepts : List Concept)
    (learner_profile : LearnerProfile) : List MCQ :=
  let fallback_mcqs := (concepts.take MAX_MCQS).mapIdx fun i concept =>
    let description := concept.description
    ({ id := (i : ℤ) + 1,
       question := "Which of the following best describes " ++ concept.name ++ "?",
       options :=
         [if 100 < description.length then description.take 100 ++ "..." else description,
          "This concept is not related to the simulation",
          "This is an incorrect understanding",
          "None of the above applies"],
       correct_answer := 0,
       explanation := "The correct answer describes " ++ concept.name ++
         " as taught in the lesson." } : MCQ)
  if fallback_mcqs.length < MIN_MCQS then
    fallback_mcqs ++
      [{ id := (fallback_mcqs.length : ℤ) + 1,
         question := "What is the main purpose of using simulations in learning?",
         options := ["To visualize and interact with concepts",
                     "To replace textbooks completely",
                     "To make learning more difficult",
                     "To test computer skills only"],
         correct_answer := 0,
         explanation := "Simulations help students visualize and interact with concepts in an engaging way." }]
  else fallback_mcqs

/-- Outcome of the oracle boundary in `mcq_generator_node`. -/
inductive McqOracle where
  | failure
  | response (j : McqJson)
  deriving Repr, DecidableEq

/-- Embeds `assessment.mcq_generator_node`. -/
def mcq_generator_node (o : McqOracle) (s : TeachingState) : TeachingState :=
  if s.concepts = [] then
    { s with error := some "No concepts available to generate MCQs",
             mcqs := [],
             next_action := "end",
             messages := s.messages ++ ["MCQ Generator: Error - No concepts to assess"] }
  else
    let num_mcqs := min (max s.concepts.length MIN_MCQS) MAX_MCQS
    let mcqs :=
      match o with
      | .failure => generate_fallback_mcqs s.concepts s.learner_profile
      | .response j => parse_mcq_response j num_mcqs
    let mcqs := if mcqs = [] then generate_fallback_mcqs s.concepts s.learner_profile else mcqs
    let n := toString mcqs.length
    { s with mcqs := mcqs,
             current_mcq_index := 0,
             student_answers := [],
             next_action := "present_mcq",
             messages := s.messages ++
               ["MCQ Generator: Created " ++ n ++ " assessment questions"] }

/-- Correct-answer count as computed by the result loops of `assessment_node`
(`enumerate(student_answers)` guarded by `i < len(mcqs)`, i.e. pairwise over
the common prefix). -/
def countCorrect : List ℤ → List MCQ → ℕ
  | a :: restA, m :: restM => (if a = m.correct_answer then 1 else 0) + countCorrect restA restM
  | _, _ => 0

/-- Score percentage as computed in `assessment_node`:
`(correct_count / len(mcqs)) * 100 if mcqs else 0`. -/
def scorePct (answers : List ℤ) (mcqs : List MCQ) : ℚ :=
  if mcqs = [] then 0 else ((countCorrect answers mcqs : ℚ) / (mcqs.length : ℚ)) * 100

/-- Placeholder MCQ used only as the default of an unreachable lookup. -/
def dummyMCQ : MCQ :=
  { id := 0, question := "", options := [], correct_answer := 0, explanation := "" }

/-- Embeds `assessment.assessment_node`; `simAnswer` abstracts the outcome of
`simulate_student_answer` (an ambient random draw in the Python code). -/
def assessment_node (simAnswer : ℤ) (s : TeachingState) : TeachingState :=
  if s.mcqs = [] then
    { s with error := some "No MCQs available",
             next_action := "end",
             messages := s.messages ++ ["Assessment: Error - No questions to present"] }
  else if s.mcqs.length ≤ s.current_mcq_index then
    let correct_count := countCorrect s.student_answers s.mcqs
    let score_pct := scorePct s.student_answers s.mcqs
    let partial_assessment : Assessment :=
      { total_questions := s.mcqs.length,
        correct_answers := correct_count,
        score_percentage := score_pct,
        feedback := "",
        recommended_next_level := none,
        teaching_stats := none }
    { s with assessment := some partial_assessment,
             next_action := "summarize",
             messages := s.messages ++
               ["Assessment: Completed quiz with score " ++ fmtRound0 score_pct ++ "%"] }
  else
    let current_mcq := (s.mcqs.get? s.current_mcq_index).getD dummyMCQ
    let question_num := s.current_mcq_index + 1
    let correct_answer := current_mcq.correct_answer
    let new_answers := s.student_answers ++ [simAnswer]
    let new_index := s.current_mcq_index + 1
    let qn := toString question_num
    let answered_msg := "Assessment: Answered Q" ++ qn ++ " - " ++
      (if simAnswer = correct_answer then "Correct" else "Incorrect")
    if s.mcqs.length ≤ new_index then
      let correct_count := countCorrect new_answers s.mcqs
      let score_pct := scorePct new_answers s.mcqs
      let cc := toString correct_count
      let tot := toString s.mcqs.length
      let final_assessment : Assessment :=
        { total_questions := s.mcqs.length,
          correct_answers := correct_count,
          score_percentage := score_pct,
          feedback := "",
          recommended_next_level := none,
          teaching_stats := none }
      { s with student_answers := new_answers,
               current_mcq_index := new_index,
               assessment := some final_assessment,
               next_action := "summarize",
               messages := s.messages ++
                 [answered_msg,
                  "Assessment: Quiz complete! Score: " ++ cc ++ "/" ++ tot ++
                    " (" ++ fmtRound0 score_pct ++ "%)"] }
    else
      { s with student_answers := new_answers,
               current_mcq_index := new_index,
               next_action := "next_mcq",
               messages := s.messages ++ [answered_msg] }

/-- Embeds `assessment.route_after_assessment`. -/
def route_after_assessment (s : TeachingState) : String :=
  if s.next_action = "summarize" ∨ s.mcqs.length ≤ s.current_mcq_index then "summary"
  else "assessment"

/-- Embeds `assessment.determine_next_level`. -/
def determine_next_level (score_pct : ℚ) (current_level : String)
    (current_calibre : String) : String :=
  let thresholds : ℚ × ℚ :=
    if current_calibre = "High IQ" then (85, 60)
    else if current_calibre = "Medium" then (75, 50)
    else (65, 40)
  if thresholds.1 ≤ score_pct then
    if current_level = "Beginner" then "Intermediate"
    else if current_level = "Intermediate" then "Advanced"
    else "Advanced"
  else if thresholds.2 ≤ score_pct then current_level
  else
    if current_level = "Advanced" then "Intermediate"
    else if current_level = "Intermediate" then "Beginner"
    else "Beginner"

/-- Embeds `assessment.generate_feedback_message`. -/
def generate_feedback_message (score_pct : ℚ) (current_level : String)
    (concepts : List Concept) (mcqs : List MCQ) (student_answers : List ℤ) : String :=
  let wrong_questions := (student_answers.zip mcqs).filterMap fun p =>
    if p.1 ≠ p.2.correct_answer then some (p.2.question.take 50) else none
  if 90 ≤ score_pct then
    let base := "🌟 Excellent work! You" ++ sq ++
      "ve demonstrated a strong understanding of all the concepts."
    if current_level = "Beginner" then
      base ++ " You" ++ sq ++ "re ready to advance to more challenging material!"
    else if current_level = "Intermediate" then
      base ++ " You" ++ sq ++ "re well prepared for advanced topics!"
    else
      base ++ " You" ++ sq ++ "ve mastered this material at the highest level!"
  else if 70 ≤ score_pct then
    let base := "👍 Good job! You understand most of the concepts well."
    match wrong_questions with
    | q0 :: _ => base ++ " You might want to review: " ++ q0 ++ "..."
    | [] => base
  else if 50 ≤ score_pct then
    let base := "📚 You" ++ sq ++ "re making progress, but some concepts need more practice."
    if wrong_questions ≠ [] then base ++ " Focus on reviewing these areas for improvement."
    else base
  else
    "💪 Keep practicing! The concepts take time to master." ++
      " Consider revisiting the simulation and paying close attention to how parameters affect the results."

/-- Embeds `assessment.calculate_teaching_stats`. -/
def calculate_teaching_stats (interactions : List Interaction)
    (concepts : List Concept) : TeachingStats :=
  let num_interactions := interactions.length
  let num_concepts := if concepts = [] then 1 else concepts.length
  let confused_count := interactions.countP fun i =>
    match i.understanding_status with | some u => u.is_confused | none => false
  let understood_count := interactions.countP fun i =>
    match i.understanding_status with | some u => !u.is_confused | none => false
  let total_checked := confused_count + understood_count
  { total_interactions := num_interactions,
    concepts_taught := num_concepts,
    avg_interactions_per_concept :=
      if 0 < num_concepts then (num_interactions : ℚ) / (num_concepts : ℚ) else 0,
    re_explain_rate :=
      if 0 < total_checked then (confused_count : ℚ) / (total_checked : ℚ) else 0,
    understanding_rate :=
      if 0 < total_checked then (understood_count : ℚ) / (total_checked : ℚ) else 0 }

/-- Embeds `assessment.summary_node` (its boxed `summary_message` goes to
stdout only and is not part of the returned update).  A `None` stored
assessment would raise `AttributeError` on the first `.get`, modelled as
`Except.error`. -/
def summary_node (s : TeachingState) : Except Unit TeachingState :=
  match s.assessment with
  | none => Except.error ()
  | some assessment =>
      let current_level := s.learner_profile.level
      let current_calibre := s.learner_profile.calibre
      let score_pct := assessment.score_percentage
      let feedback := generate_feedback_message score_pct current_level s.concepts s.mcqs
        s.student_answers
      let recommended_level := determine_next_level score_pct current_level current_calibre
      let teaching_stats := calculate_teaching_stats s.interactions s.concepts
      let final_assessment : Assessment :=
        { total_questions := assessment.total_questions,
          correct_answers := assessment.correct_answers,
          score_percentage := score_pct,
          feedback := feedback,
          recommended_next_level := some recommended_level,
          teaching_stats := some teaching_stats }
      Except.ok
        { s with assessment := some final_assessment,
                 next_action := "complete",
                 messages := s.messages ++
                   ["Summary: Session complete! Score: " ++ fmtRound0 score_pct ++
                    "%, Recommended: " ++ recommended_level] }

/-! ## Resume patch and session step relation -/

/-- Embeds the resume patch of `frontend/utils/backend_bridge.send_message`
(`compiled_graph.update_state(..., as_node="probing")`): the bridge appends
an interaction record built from the last agent message, stores the response,
and flips `next_action` so the graph resumes into the understanding checker. -/
def resume_patch (now : String) (user_input : String) (s : TeachingState) : TeachingState :=
  let agent_message := (s.messages.getLast?).getD "Question asked"
  { s with student_response := some user_input,
           interactions := s.interactions ++
             [{ timestamp := now, agent_message := agent_message,
                student_response := some user_input, understanding_status := none }],
           next_action := "check_understanding" }

/-- One node execution (or resume patch) of the compiled teaching graph
(`graph.create_teaching_graph`): the update relation any session run steps
through.  Nodes whose Python bodies can raise contribute a step only when
they return normally. -/
inductive Step : TeachingState → TeachingState → Prop where
  | ingest (lookup : Option String) (mode : String) {s s' : TeachingState}
      (h : simulation_ingest_node lookup mode s = Except.ok s') : Step s s'
  | parse (extracted : Option (List (String × SimParam))) (s : TeachingState) :
      Step s (simulation_parser_node extracted s)
  | extract (o : ConceptOracle) (s : TeachingState) : Step s (concept_extractor_node o s)
  | router (s : TeachingState) : Step s (router_node s)
  | planner (o : PlannerOracle) {s s' : TeachingState}
      (h : planner_node o s = Except.ok s') : Step s s'
  | teaching (s : TeachingState) : Step s (teaching_node s)
  | probing (now : String) (s : TeachingState) : Step s (probing_node now s)
  | checker (o : CheckerOracle) (s : TeachingState) : Step s (understanding_checker_node o s)
  | feedback (pick : ℕ) (s : TeachingState) : Step s (feedback_node pick s)
  | mcqGen (o : McqOracle) (s : TeachingState) : Step s (mcq_generator_node o s)
  | assess (simAnswer : ℤ) (s : TeachingState) : Step s (assessment_node simAnswer s)
  | summarize {s s' : TeachingState} (h : summary_node s = Except.ok s') : Step s s'
  | resume (now user_input : String) (s : TeachingState) :
      Step s (resume_patch now user_input s)

/-- Reflexive-transitive closure of `Step`: the states a session can reach. -/
inductive Reach : TeachingState → TeachingState → Prop where
  | refl (s : TeachingState) : Reach s s
  | tail {s t u : TeachingState} : Reach s t → Step t u → Reach s u

/-! ## Concrete states used by the witnesses -/

/-- A concrete takeaway used by the witnesses. -/
def wTakeaway : Takeaway :=
  { id := 1,
    concept := none,
    explanation := "pH measures acidity.",
    parameters_to_vary := ["phSlider"],
    parameter_values := [],
    display_mode := "single",
    before_state := none,
    after_state := none,
    probing_question := "What happens when pH drops?" }

/-- A concrete session state used by the witnesses. -/
def wState : TeachingState :=
  { simulation_name := "acids_bases",
    learner_profile := { level := "Beginner", calibre := "Medium" },
    control_mode := "MANUAL",
    simulation_params :=
      [("phSlider",
        { type := "range", html_id := some "phSlider", min := some 0, max := some 14,
          options := [], default := some (.num 7) })],
    concepts := [{ name := "pH", description := "Acidity measure", importance := "high" }],
    current_concept_index := 0,
    takeaways := [wTakeaway],
    current_takeaway_index := 0,
    re_explain_count := 0,
    interactions := [],
    understanding_status :=
      { is_confused := false, confidence_level := 9/10, last_interaction_quality := "good" },
    student_response := none,
    mcqs := [],
    current_mcq_index := 0,
    student_answers := [],
    assessment := none,
    messages := [],
    feedback_message := none,
    next_action := "probe",
    error := none }

/-- A concrete MCQ used by the witnesses. -/
def wMcq1 : MCQ :=
  { id := 1, question := "Q1", options := ["a", "b"], correct_answer := 0, explanation := "" }

/-- A second concrete MCQ used by the witnesses. -/
def wMcq2 : MCQ :=
  { id := 2, question := "Q2", options := ["a", "b"], correct_answer := 1, explanation := "" }

/-- A concrete mid-quiz state used by the assessment witness. -/
def wAssessState : TeachingState :=
  { wState with mcqs := [wMcq1, wMcq2], current_mcq_index := 1, student_answers := [0] }

/-! ## Supporting lemmas: `re_explain_count` across the nodes -/

lemma ingest_count {lookup : Option String} {mode : String} {s s' : TeachingState}
    (h : simulation_ingest_node lookup mode s = Except.ok s') :
    s'.re_explain_count = s.re_explain_count := by
  unfold simulation_ingest_node at h
  split at h
  · simp at h
  · split at h
    · simp at h
    · rw [Except.ok.injEq] at h
      subst h
      rfl

lemma planner_count {o : PlannerOracle} {s s' : TeachingState}
    (h : planner_node o s = Except.ok s') :
    s'.re_explain_count = s.re_explain_count := by
  unfold planner_node at h
  split at h
  · rw [Except.ok.injEq] at h
    subst h
    rfl
  · cases o with
    | initError => simp at h
    | invokeError => simp at h
    | response j =>
        dsimp only at h
        split at h
        · simp at h
        · rw [Except.ok.injEq] at h
          subst h
          rfl

lemma summary_count {s s' : TeachingState} (h : summary_node s = Except.ok s') :
    s'.re_explain_count = s.re_explain_count := by
  unfold summary_node at h
  split at h
  · simp at h
  · rw [Except.ok.injEq] at h
    subst h
    rfl

lemma parser_count (extracted : Option (List (String × SimParam))) (s : TeachingState) :
    (simulation_parser_node extracted s).re_explain_count = s.re_explain_count := rfl

lemma extract_count (o : ConceptOracle) (s : TeachingState) :
    (concept_extractor_node o s).re_explain_count = s.re_explain_count := by
  cases o <;> rfl

lemma router_count (s : TeachingState) :
    (router_node s).re_explain_count = s.re_explain_count := rfl

lemma teaching_count (s : TeachingState) :
    (teaching_node s).re_explain_count = s.re_explain_count := by
  unfold teaching_node
  split_ifs <;> rfl

lemma probing_count (now : String) (s : TeachingState) :
    (probing_node now s).re_explain_count = s.re_explain_count := by
  unfold probing_node
  split
  · rfl
  · split <;> rfl

lemma checker_count (o : CheckerOracle) (s : TeachingState) :
    (understanding_checker_node o s).re_explain_count = s.re_explain_count := by
  unfold understanding_checker_node
  split <;> rfl

lemma mcq_count (o : McqOracle) (s : TeachingState) :
    (mcq_generator_node o s).re_explain_count = s.re_explain_count := by
  unfold mcq_generator_node
  split_ifs <;> rfl

lemma assessment_count (simAnswer : ℤ) (s : TeachingState) :
    (assessment_node simAnswer s).re_explain_count = s.re_explain_count := by
  unfold assessment_node
  dsimp only
  split_ifs <;> rfl

lemma resume_count (now user_input : String) (s : TeachingState) :
    (resume_patch now user_input s).re_explain_count = s.re_explain_count := rfl

lemma feedback_decision_count_le (pick : ℕ) (us : UnderstandingStatus)
    (ct : Option Takeaway) (idx total : ℕ) (concept : String) (count : ℕ) (cal : String)
    (h : count ≤ MAX_RE_EXPLAIN_ATTEMPTS) :
    (feedback_decision pick us ct idx total concept count cal).new_re_explain_count ≤
      MAX_RE_EXPLAIN_ATTEMPTS := by
  unfold feedback_decision handle_understood handle_partial_path handle_confused
    MAX_RE_EXPLAIN_ATTEMPTS at *
  dsimp only
  split_ifs <;> dsimp only <;> omega

lemma feedback_count_le (pick : ℕ) (s : TeachingState)
    (h : s.re_explain_count ≤ MAX_RE_EXPLAIN_ATTEMPTS) :
    (feedback_node pick s).re_explain_count ≤ MAX_RE_EXPLAIN_ATTEMPTS := by
  unfold feedback_node
  dsimp only
  split_ifs
  · simp [MAX_RE_EXPLAIN_ATTEMPTS]
  · exact feedback_decision_count_le _ _ _ _ _ _ _ _ h

lemma step_count {s s' : TeachingState} (h : Step s s')
    (hle : s.re_explain_count ≤ MAX_RE_EXPLAIN_ATTEMPTS) :
    s'.re_explain_count ≤ MAX_RE_EXPLAIN_ATTEMPTS := by
  cases h with
  | ingest lookup mode h => rw [ingest_count h]; exact hle
  | parse extracted s => rw [parser_count]; exact hle
  | extract o s => rw [extract_count]; exact hle
  | router s => rw [router_count]; exact hle
  | planner o h => rw [planner_count h]; exact hle
  | teaching s => rw [teaching_count]; exact hle
  | probing now s => rw [probing_count]; exact hle
  | checker o s => rw [checker_count]; exact hle
  | feedback pick s => exact feedback_count_le pick s hle
  | mcqGen o s => rw [mcq_count]; exact hle
  | assess simAnswer s => rw [assessment_count]; exact hle
  | summarize h => rw [summary_count h]; exact hle
  | resume now user_input s => rw [resume_count]; exact hle

lemma reach_count {s0 s : TeachingState} (h0 : s0.re_explain_count ≤ MAX_RE_EXPLAIN_ATTEMPTS)
    (h : Reach s0 s) : s.re_explain_count ≤ MAX_RE_EXPLAIN_ATTEMPTS := by
  induction h with
  | refl => exact h0
  | tail hreach hstep ih => exact step_count hstep ih

/-! ## Claim theorems -/

/-- C7: `router_node` is a pure decision function: `next_action` becomes
`assess` when the concept cursor has reached the concept count, else
`re-explain` when the understanding status is confused, else `plan`, with the
branches checked in exactly that order; besides `next_action` and the
`messages` log every state field is unchanged. -/
theorem c7_router_pure_decision (s : TeachingState) :
    ((s.concepts.length ≤ s.current_concept_index →
        (router_node s).next_action = "assess")
      ∧ (s.current_concept_index < s.concepts.length →
          s.understanding_status.is_confused = true →
          (router_node s).next_action = "re-explain")
      ∧ (s.current_concept_index < s.concepts.length →
          s.understanding_status.is_confused = false →
          (router_node s).next_action = "plan"))
    ∧ (router_node s).simulation_name = s.simulation_name
    ∧ (router_node s).learner_profile = s.learner_profile
    ∧ (router_node s).control_mode = s.control_mode
    ∧ (router_node s).simulation_params = s.simulation_params
    ∧ (router_node s).concepts = s.concepts
    ∧ (router_node s).current_concept_index = s.current_concept_index
    ∧ (router_node s).takeaways = s.takeaways
    ∧ (router_node s).current_takeaway_index = s.current_takeaway_index
    ∧ (router_node s).re_explain_count = s.re_explain_count
    ∧ (router_node s).interactions = s.interactions
    ∧ (router_node s).understanding_status = s.understanding_status
    ∧ (router_node s).student_response = s.student_response
    ∧ (router_node s).mcqs = s.mcqs
    ∧ (router_node s).current_mcq_index = s.current_mcq_index
    ∧ (router_node s).student_answers = s.student_answers
    ∧ (router_node s).assessment = s.assessment
    ∧ (router_node s).feedback_message = s.feedback_message
    ∧ (router_node s).error = s.error := by
  refine ⟨⟨?_, ?_, ?_⟩, rfl, rfl, rfl, rfl, rfl, rfl, rfl, rfl, rfl, rfl, rfl, rfl, rfl,
    rfl, rfl, rfl, rfl, rfl⟩
  · intro h
    unfold router_node router_decision
    rw [if_pos h]
  · intro h hc
    unfold router_node router_decision
    rw [if_neg (by omega), if_pos hc]
  · intro h hc
    unfold router_node router_decision
    rw [if_neg (by omega), if_neg (by simp [hc])]

/-- Witness for C7 at a concrete state: below the concept count and not
confused, the router decides `plan`. -/
theorem c7_witness :
    wState.current_concept_index < wState.concepts.length
    ∧ (router_node wState).next_action = "plan" :=
  ⟨by decide, (c7_router_pure_decision wState).1.2.2 (by decide) (by decide)⟩

/-- C8: the heuristic classifier used when the understanding-check oracle
fails: a confusion marker anywhere in the lowercased (stripped) response
gives `confused`; else a length under 5 gives `partial` (with low confidence
0.4); else at least 2 positive-engagement markers together with a length over
20 give `understood`; otherwise `partial`. -/
theorem c8_fallback_classifier (resp q : String) :
    (fallback_understanding_analysis resp q).classification =
      (if confusion_phrases.any (fun p => strContains (pyStrip (pyLower resp)) p) then
        "confused"
      else if (pyStrip (pyLower resp)).length < 5 then "partial"
      else if 2 ≤ positive_phrases.countP (fun p => strContains (pyStrip (pyLower resp)) p)
              ∧ 20 < (pyStrip (pyLower resp)).length then "understood"
      else "partial")
    ∧ (confusion_phrases.any (fun p => strContains (pyStrip (pyLower resp)) p) = false →
        (pyStrip (pyLower resp)).length < 5 →
        (fallback_understanding_analysis resp q).confidence = 4/10) := by
  unfold fallback_understanding_analysis
  dsimp only
  rcases hf : confusion_phrases.find? (fun p => strContains (pyStrip (pyLower resp)) p)
    with _ | p
  · have hany : confusion_phrases.any (fun p => strContains (pyStrip (pyLower resp)) p)
        = false := by
      rw [List.any_eq_false]
      intro x hx
      have := List.find?_eq_none.mp hf x hx
      simpa using this
    constructor
    · simp only [hf, hany, Bool.false_eq_true, if_false]
      split_ifs <;> rfl
    · intro _ hlen
      simp only [hf]
      rw [if_pos hlen]
  · have hp := List.find?_some hf
    have hmem := List.mem_of_find?_eq_some hf
    have hany : confusion_phrases.any (fun p => strContains (pyStrip (pyLower resp)) p)
        = true := List.any_eq_true.mpr ⟨p, hmem, hp⟩
    constructor
    · simp only [hf, hany, if_true]
    · intro hfalse _
      rw [hany] at hfalse
      cases hfalse

/-- Witness for C8 at concrete responses: a marker yields `confused`, and a
short marker-free response yields low-confidence `partial`. -/
theorem c8_witness :
    (fallback_understanding_analysis "idk" "q").classification = "confused"
    ∧ (fallback_understanding_analysis "hmm" "q").confidence = 4/10 := by
  constructor
  · rw [(c8_fallback_classifier "idk" "q").1]
    decide
  · exact (c8_fallback_classifier "hmm" "q").2 (by decide) (by decide)

/-- C1: the feedback decision takes exactly one of three mutually exclusive
paths selected by `(is_confused, confidence_level)`.  Understood
(`¬confused ∧ 0.7 ≤ conf`) advances the takeaway cursor by one, resets the
retry counter, and emits `concept_complete` exactly when the new cursor
reaches the takeaway count and `next_takeaway` otherwise.  Partial
(`¬confused ∧ 0.4 ≤ conf < 0.7`, with fewer than 3 retries) keeps the cursor,
increments the counter, and emits `re_probe`.  Confused
(`confused ∨ conf < 0.4`, with fewer than 3 retries) keeps the cursor,
increments the counter, and emits `re_explain`. -/
theorem c1_feedback_three_paths (pick : ℕ) (us : UnderstandingStatus) (ct : Option Takeaway)
    (idx total : ℕ) (concept : String) (count : ℕ) (cal : String) :
    ∀ d : FeedbackDecision, d = feedback_decision pick us ct idx total concept count cal →
      ((us.is_confused = false ∧ 7/10 ≤ us.confidence_level →
          d.new_takeaway_idx = idx + 1 ∧ d.new_re_explain_count = 0 ∧
            d.next_action = if total ≤ idx + 1 then "concept_complete" else "next_takeaway")
        ∧ (us.is_confused = false ∧ 4/10 ≤ us.confidence_level ∧ us.confidence_level < 7/10 →
            count < MAX_RE_EXPLAIN_ATTEMPTS →
            d.new_takeaway_idx = idx ∧ d.new_re_explain_count = count + 1 ∧
              d.next_action = "re_probe")
        ∧ ((us.is_confused = true ∨ us.confidence_level < 4/10) →
            count < MAX_RE_EXPLAIN_ATTEMPTS →
            d.new_takeaway_idx = idx ∧ d.new_re_explain_count = count + 1 ∧
              d.next_action = "re_explain"))
      ∧ ((us.is_confused = false ∧ 7/10 ≤ us.confidence_level)
          ∨ (us.is_confused = false ∧ 4/10 ≤ us.confidence_level ∧ us.confidence_level < 7/10)
          ∨ (us.is_confused = true ∨ us.confidence_level < 4/10))
      ∧ ¬((us.is_confused = false ∧ 7/10 ≤ us.confidence_level)
          ∧ (us.is_confused = false ∧ 4/10 ≤ us.confidence_level ∧ us.confidence_level < 7/10))
      ∧ ¬((us.is_confused = false ∧ 7/10 ≤ us.confidence_level)
          ∧ (us.is_confused = true ∨ us.confidence_level < 4/10))
      ∧ ¬((us.is_confused = false ∧ 4/10 ≤ us.confidence_level ∧ us.confidence_level < 7/10)
          ∧ (us.is_confused = true ∨ us.confidence_level < 4/10)) := by
  intro d hd
  refine ⟨⟨?_, ?_, ?_⟩, ?_, ?_, ?_, ?_⟩
  · rintro ⟨hc, hconf⟩
    subst hd
    unfold feedback_decision handle_understood
    rw [if_pos ⟨hc, hconf⟩]
    dsimp only
    split_ifs <;> exact ⟨rfl, rfl, rfl⟩
  · rintro ⟨hc, hge, hlt⟩ hcount
    subst hd
    unfold feedback_decision
    rw [if_neg (fun h => absurd h.2 (not_le.mpr hlt)), if_pos ⟨hc, hge⟩]
    unfold handle_partial_path
    rw [if_neg (not_le.mpr hcount)]
    dsimp only
    exact ⟨rfl, rfl, rfl⟩
  · intro h3 hcount
    subst hd
    have hn1 : ¬(us.is_confused = false ∧ 7/10 ≤ us.confidence_level) := by
      rintro ⟨hc, h7⟩
      rcases h3 with h | h
      · rw [hc] at h
        cases h
      · linarith
    have hn2 : ¬(us.is_confused = false ∧ 4/10 ≤ us.confidence_level) := by
      rintro ⟨hc, h4⟩
      rcases h3 with h | h
      · rw [hc] at h
        cases h
      · linarith
    unfold feedback_decision
    rw [if_neg hn1, if_neg hn2]
    unfold handle_confused
    rw [if_neg (not_le.mpr hcount)]
    dsimp only
    exact ⟨rfl, rfl, rfl⟩
  · rcases Bool.eq_false_or_eq_true us.is_confused with hc | hc
    · exact Or.inr (Or.inr (Or.inl hc))
    · rcases le_or_lt (7/10 : ℚ) us.confidence_level with h7 | h7
      · exact Or.inl ⟨hc, h7⟩
      · rcases le_or_lt (4/10 : ℚ) us.confidence_level with h4 | h4
        · exact Or.inr (Or.inl ⟨hc, h4, h7⟩)
        · exact Or.inr (Or.inr (Or.inr h4))
  · rintro ⟨⟨_, h7⟩, ⟨_, _, hlt⟩⟩
    linarith
  · rintro ⟨⟨hc, h7⟩, h | h4⟩
    · rw [hc] at h
      cases h
    · linarith
  · rintro ⟨⟨hc, h4, _⟩, h | h4'⟩
    · rw [hc] at h
      cases h
    · linarith

/-- Witness for C1 at concrete inputs: an Understood decision at the last
takeaway emits `concept_complete`, and a Confused decision under the retry
bound emits `re_explain`. -/
theorem c1_witness :
    (feedback_decision 0 ⟨false, 9/10, "good"⟩ none 0 1 "pH" 0 "Medium").next_action =
      "concept_complete"
    ∧ (feedback_decision 0 ⟨true, 1/2, "poor"⟩ none 0 1 "pH" 0 "Medium").next_action =
      "re_explain" := by
  constructor
  · have h := (c1_feedback_three_paths 0 ⟨false, 9/10, "good"⟩ none 0 1 "pH" 0 "Medium"
      (feedback_decision 0 ⟨false, 9/10, "good"⟩ none 0 1 "pH" 0 "Medium") rfl).1.1
      ⟨rfl, by norm_num⟩
    rw [h.2.2]
    simp
  · exact ((c1_feedback_three_paths 0 ⟨true, 1/2, "poor"⟩ none 0 1 "pH" 0 "Medium"
      (feedback_decision 0 ⟨true, 1/2, "poor"⟩ none 0 1 "pH" 0 "Medium") rfl).1.2.2
      (Or.inl rfl) (by decide)).2.2

/-- C2: starting from `re_explain_count = 0`, the counter stays at most
`MAX_RE_EXPLAIN_ATTEMPTS` (3) in every reachable state — in particular at the
start of every feedback decision — because every node's update preserves the
bound; and a feedback decision entered on the Partial or Confused path with
the counter at the bound performs a forced advance in that same call:
cursor + 1, counter reset to 0, and `next_action` equal to
`concept_complete` when the new cursor reaches the takeaway count and
`next_takeaway` otherwise. -/
theorem c2_re_explain_bound :
    (∀ s0 s : TeachingState, s0.re_explain_count = 0 → Reach s0 s →
      s.re_explain_count ≤ MAX_RE_EXPLAIN_ATTEMPTS)
    ∧ (∀ (pick : ℕ) (us : UnderstandingStatus) (ct : Option Takeaway) (idx total : ℕ)
        (concept : String) (count : ℕ) (cal : String),
        MAX_RE_EXPLAIN_ATTEMPTS ≤ count →
        (us.is_confused = true ∨ us.confidence_level < 7/10) →
        (feedback_decision pick us ct idx total concept count cal).new_takeaway_idx = idx + 1
        ∧ (feedback_decision pick us ct idx total concept count cal).new_re_explain_count = 0
        ∧ (feedback_decision pick us ct idx total concept count cal).next_action =
            (if total ≤ idx + 1 then "concept_complete" else "next_takeaway")) := by
  constructor
  · intro s0 s h0 hreach
    refine reach_count ?_ hreach
    rw [h0]
    exact Nat.zero_le _
  · intro pick us ct idx total concept count cal hcount hpath
    have hn1 : ¬(us.is_confused = false ∧ 7/10 ≤ us.confidence_level) := by
      rintro ⟨hc, h7⟩
      rcases hpath with h | h
      · rw [hc] at h
        cases h
      · linarith
    unfold feedback_decision
    rw [if_neg hn1]
    by_cases h2 : us.is_confused = false ∧ 4/10 ≤ us.confidence_level
    · rw [if_pos h2]
      unfold handle_partial_path
      rw [if_pos hcount]
      dsimp only
      exact ⟨rfl, rfl, rfl⟩
    · rw [if_neg h2]
      unfold handle_confused
      rw [if_pos hcount]
      dsimp only
      exact ⟨rfl, rfl, rfl⟩

/-- Witness for C2: the bound holds in a reachable state of a concrete
session (one feedback step from the start), and a Partial-path decision
entered with the counter at 3 forces an advance with the counter reset. -/
theorem c2_witness :
    (feedback_node 0 wState).re_explain_count ≤ MAX_RE_EXPLAIN_ATTEMPTS
    ∧ (feedback_decision 0 ⟨false, 1/2, "neutral"⟩ none 0 2 "pH" 3 "Medium").new_re_explain_count
        = 0
    ∧ (feedback_decision 0 ⟨false, 1/2, "neutral"⟩ none 0 2 "pH" 3 "Medium").next_action
        = "next_takeaway" := by
  have h1 := c2_re_explain_bound.1 wState (feedback_node 0 wState) rfl
    (Reach.tail (Reach.refl wState) (Step.feedback 0 wState))
  have h2 := c2_re_explain_bound.2 0 ⟨false, 1/2, "neutral"⟩ none 0 2 "pH" 3 "Medium"
    (by decide) (Or.inr (by norm_num))
  refine ⟨h1, h2.2.1, ?_⟩
  rw [h2.2.2]
  simp

/-- C4: whenever `feedback_node` produces the `concept_complete` signal, the
same returned update performs the concept-boundary reset: concept cursor + 1,
takeaway cursor 0, `takeaways` cleared, retry counter 0, and
`understanding_status` reset to the neutral non-confused default — so a
subsequent router decision never takes the leftover-confusion branch. -/
theorem c4_concept_complete_reset (pick : ℕ) (s : TeachingState)
    (h : (feedback_node pick s).next_action = "concept_complete") :
    (feedback_node pick s).current_concept_index = s.current_concept_index + 1
    ∧ (feedback_node pick s).current_takeaway_index = 0
    ∧ (feedback_node pick s).takeaways = []
    ∧ (feedback_node pick s).re_explain_count = 0
    ∧ (feedback_node pick s).understanding_status = neutralStatus
    ∧ (feedback_node pick s).understanding_status.is_confused = false
    ∧ (router_node (feedback_node pick s)).next_action ≠ "re-explain" := by
  unfold feedback_node at h ⊢
  dsimp only at h ⊢
  split_ifs at h ⊢ with hd
  · refine ⟨rfl, rfl, rfl, rfl, rfl, rfl, ?_⟩
    unfold router_node router_decision
    dsimp only
    split_ifs with h1 h2
    · decide
    · simp [neutralStatus] at h2
    · decide
  · exact absurd h hd

/-- The concrete understood state `wState` fires `concept_complete` (the
rational threshold comparison keeps this outside `decide`'s reach). -/
lemma wState_concept_complete : (feedback_node 0 wState).next_action = "concept_complete" := by
  unfold feedback_node feedback_decision handle_understood
  norm_num [wState, wTakeaway, tkConcept, concept_name_at, generate_praise_message]

/-- Witness for C4: at a concrete understood state on the last takeaway, the
feedback call fires `concept_complete` and performs the reset. -/
theorem c4_witness :
    (feedback_node 0 wState).current_concept_index = 1
    ∧ (feedback_node 0 wState).takeaways = []
    ∧ (feedback_node 0 wState).understanding_status.is_confused = false
    ∧ (router_node (feedback_node 0 wState)).next_action ≠ "re-explain" := by
  have h := c4_concept_complete_reset 0 wState wState_concept_complete
  exact ⟨h.1, h.2.2.1, h.2.2.2.2.2.1, h.2.2.2.2.2.2⟩

/-- C5: when `probing_node` runs with a student response present and a
takeaway under the cursor, it appends exactly one interaction record —
timestamp, built question message, the response, `understanding_status =
none` — never zero and never two, sets `next_action` to
`check_understanding`, and clears the transient `student_response`. -/
theorem c5_probing_appends_one_record (now r : String) (s : TeachingState)
    (h : s.current_takeaway_index < s.takeaways.length)
    (hr : s.student_response = some r) :
    (probing_node now s).interactions =
      s.interactions ++
        [{ timestamp := now,
           agent_message := build_probing_message
             (s.takeaways.get ⟨s.current_takeaway_index, h⟩).probing_question
             (s.current_takeaway_index + 1) s.takeaways.length
             (concept_name_at s.concepts s.current_concept_index "Unknown Concept"),
           student_response := some r,
           understanding_status := none }]
    ∧ (probing_node now s).interactions.length = s.interactions.length + 1
    ∧ (probing_node now s).next_action = "check_understanding"
    ∧ (probing_node now s).student_response = none := by
  have hg : s.takeaways.get? s.current_takeaway_index =
      some (s.takeaways.get ⟨s.current_takeaway_index, h⟩) := List.get?_eq_get h
  unfold probing_node create_interaction_record
  simp only [hg, hr]
  simp

/-- Witness for C5 at a concrete state carrying a pending student response. -/
theorem c5_witness :
    (probing_node "t0" { wState with student_response := some "it went down" }).interactions.length
      = 1
    ∧ (probing_node "t0" { wState with student_response := some "it went down" }).student_response
      = none := by
  have h := c5_probing_appends_one_record "t0" "it went down"
    { wState with student_response := some "it went down" } (by decide) rfl
  exact ⟨h.2.1, h.2.2.2⟩

/-- C6: when `probing_node` runs with no student response (and a takeaway
under the cursor), the returned update changes nothing except appending the
probing-question message to `messages` and setting `next_action` to
`wait_for_response`: no interaction record is created and no cursor moves. -/
theorem c6_probing_wait_frame (now : String) (s : TeachingState)
    (h : s.current_takeaway_index < s.takeaways.length)
    (hr : s.student_response = none) :
    probing_node now s =
      { s with
          messages := s.messages ++
            [build_probing_message
              (s.takeaways.get ⟨s.current_takeaway_index, h⟩).probing_question
              (s.current_takeaway_index + 1) s.takeaways.length
              (concept_name_at s.concepts s.current_concept_index "Unknown Concept")],
          next_action := "wait_for_response" }
    ∧ (probing_node now s).interactions = s.interactions
    ∧ (probing_node now s).current_takeaway_index = s.current_takeaway_index
    ∧ (probing_node now s).current_concept_index = s.current_concept_index := by
  have hg : s.takeaways.get? s.current_takeaway_index =
      some (s.takeaways.get ⟨s.current_takeaway_index, h⟩) := List.get?_eq_get h
  unfold probing_node
  simp only [hg, hr]
  simp

/-- Witness for C6 at a concrete state with no pending response. -/
theorem c6_witness :
    (probing_node "t0" wState).next_action = "wait_for_response"
    ∧ (probing_node "t0" wState).interactions = wState.interactions := by
  have h := c6_probing_wait_frame "t0" wState (by decide) rfl
  constructor
  · rw [h.1]
  · exact h.2.1

/-- C3 (code bug): a parse failure of the oracle's lesson-plan response is
propagated out of `planner_node` as an uncaught exception — the `raise e` at
planner.py line 156 precedes the fallback `return`, which is therefore dead
code — so the deterministic fallback with `current_takeaway_index = 0` and
`next_action = "teach"` that the spec promises never happens on the
parse-failure (or invoke-failure) path. -/
theorem c3_planner_parse_failure_propagates :
    planner_node (PlannerOracle.response TakeawayJson.malformed) wState = Except.error ()
    ∧ planner_node PlannerOracle.invokeError wState = Except.error () := by
  constructor <;> rfl

/-- Closed form of `scorePct` on a non-empty question list. -/
lemma scorePct_formula (answers : List ℤ) (mcqs : List MCQ) (h : ¬mcqs = []) :
    scorePct answers mcqs =
      100 * (countCorrect answers mcqs : ℚ) / (mcqs.length : ℚ) := by
  unfold scorePct
  rw [if_neg h]
  ring

/-- C9: whenever `assessment_node` completes the quiz (its update carries
`next_action = "summarize"`), the stored assessment is re-derivable from the
resulting state: `total_questions` is the MCQ count, `correct_answers` is the
number of positions where the stored answer equals the question's correct
answer, and `score_percentage` equals 100 times that count divided by the MCQ
count. -/
theorem c9_assessment_score_rederivable (simAnswer : ℤ) (s : TeachingState) (A : Assessment)
    (h : (assessment_node simAnswer s).next_action = "summarize")
    (hA : (assessment_node simAnswer s).assessment = some A) :
    A.total_questions = (assessment_node simAnswer s).mcqs.length
    ∧ A.correct_answers =
        countCorrect (assessment_node simAnswer s).student_answers
          (assessment_node simAnswer s).mcqs
    ∧ A.score_percentage =
        100 * (countCorrect (assessment_node simAnswer s).student_answers
                 (assessment_node simAnswer s).mcqs : ℚ) /
          ((assessment_node simAnswer s).mcqs.length : ℚ) := by
  unfold assessment_node at h hA ⊢
  dsimp only at h hA ⊢
  split_ifs at h hA ⊢ <;> dsimp only at h hA ⊢
  all_goals first
    | exact absurd h (by decide)
    | (rw [Option.some.injEq] at hA
       subst hA
       exact ⟨rfl, rfl, scorePct_formula _ _ (by assumption)⟩)

/-- Witness for C9: answering the last of two concrete questions stores the
recomputable 50% score. -/
theorem c9_witness :
    (assessment_node 0 wAssessState).next_action = "summarize"
    ∧ (assessment_node 0 wAssessState).assessment =
        some { total_questions := 2, correct_answers := 1, score_percentage := 50,
               feedback := "", recommended_next_level := none, teaching_stats := none }
    ∧ ({ total_questions := 2, correct_answers := 1, score_percentage := 50,
         feedback := "", recommended_next_level := none,
         teaching_stats := none } : Assessment).score_percentage =
        100 * (countCorrect (assessment_node 0 wAssessState).student_answers
                 (assessment_node 0 wAssessState).mcqs : ℚ) /
          ((assessment_node 0 wAssessState).mcqs.length : ℚ) := by
  have hna : (assessment_node 0 wAssessState).next_action = "summarize" := by decide
  have hA : (assessment_node 0 wAssessState).assessment =
      some { total_questions := 2, correct_answers := 1, score_percentage := 50,
             feedback := "", recommended_next_level := none, teaching_stats := none } := by
    have hne : ¬(wAssessState.mcqs = []) := by simp [wAssessState, wState, wMcq1, wMcq2]
    unfold assessment_node
    rw [if_neg hne]
    norm_num [wAssessState, wState, wMcq1, wMcq2, scorePct, countCorrect]
    simp
  exact ⟨hna, hA,
    (c9_assessment_score_rederivable 0 wAssessState _ hna hA).2.2⟩

/-- The understanding analysis always reports a confidence in `[0, 1]`,
whichever oracle outcome occurred. -/
lemma checker_result_conf_bounds (o : CheckerOracle) (resp q : String) :
    0 ≤ (checker_result o resp q).confidence ∧ (checker_result o resp q).confidence ≤ 1 := by
  cases o with
  | llmError =>
      unfold checker_result fallback_understanding_analysis
      dsimp only
      rcases hf : confusion_phrases.find? (fun p => strContains (pyStrip (pyLower resp)) p)
        with _ | p
      · simp only [hf]
        split_ifs <;> norm_num
      · simp only [hf]
        norm_num
  | llmOk j text =>
      cases j with
      | jsonFail =>
          unfold checker_result parse_understanding_response
          dsimp only
          split_ifs <;> norm_num
      | jsonOk c cf r =>
          unfold checker_result parse_understanding_response
          dsimp only
          constructor
          · exact le_max_left 0 _
          · exact max_le (by norm_num) (min_le_left 1 _)

/-- The quality tag is always one of the three allowed values. -/
lemma interaction_quality_mem (c : String) :
    interaction_quality c ∈ (["good", "poor", "neutral"] : List String) := by
  unfold interaction_quality
  split_ifs <;> simp

/-- C10: every invocation of `understanding_checker_node` — LLM success, LLM
failure with the heuristic fallback, or the no-interactions error path —
returns an understanding status whose confidence lies in `[0, 1]` (out-of-
range LLM confidences are clamped), whose quality tag is one of `good`,
`poor`, `neutral`, and whose `is_confused` flag is true exactly when the
computed classification is `confused` (the no-interactions path returns the
neutral non-confused default). -/
theorem c10_checker_status_wellformed (o : CheckerOracle) (s : TeachingState) :
    (0 ≤ (understanding_checker_node o s).understanding_status.confidence_level
      ∧ (understanding_checker_node o s).understanding_status.confidence_level ≤ 1)
    ∧ (understanding_checker_node o s).understanding_status.last_interaction_quality ∈
        (["good", "poor", "neutral"] : List String)
    ∧ (∀ li, s.interactions.getLast? = some li →
        ((understanding_checker_node o s).understanding_status.is_confused = true ↔
          (checker_result o (li.student_response.getD "")
            (probing_question_at s.takeaways s.current_takeaway_index)).classification =
            "confused"))
    ∧ (s.interactions = [] →
        (understanding_checker_node o s).understanding_status =
          { is_confused := false, confidence_level := 1/2,
            last_interaction_quality := "neutral" }) := by
  rcases hl : s.interactions.getLast? with _ | li
  · have hnil : s.interactions = [] := by
      cases hi : s.interactions with
      | nil => rfl
      | cons a l => rw [hi] at hl; simp at hl
    unfold understanding_checker_node
    rw [hl]
    refine ⟨⟨by norm_num, by norm_num⟩, by simp, ?_, fun _ => rfl⟩
    intro li hli
    cases hli
  · unfold understanding_checker_node
    rw [hl]
    dsimp only
    refine ⟨checker_result_conf_bounds o _ _, interaction_quality_mem _, ?_, ?_⟩
    · intro li' hli'
      rw [Option.some.injEq] at hli'
      subst hli'
      exact beq_iff_eq
    · intro hnil
      rw [hnil] at hl
      simp at hl

/-- Witness for C10: the no-interactions path yields the neutral default, and
a fallback run on a confused response sets the confused flag. -/
theorem c10_witness :
    (understanding_checker_node CheckerOracle.llmError wState).understanding_status =
      { is_confused := false, confidence_level := 1/2, last_interaction_quality := "neutral" }
    ∧ ((understanding_checker_node CheckerOracle.llmError
          { wState with interactions :=
              [{ timestamp := "t0", agent_message := "q", student_response := some "idk",
                 understanding_status := none }] }).understanding_status.is_confused = true ↔
        (checker_result CheckerOracle.llmError "idk"
          (probing_question_at wState.takeaways 0)).classification = "confused") := by
  constructor
  · exact (c10_checker_status_wellformed CheckerOracle.llmError wState).2.2.2 rfl
  · exact (c10_checker_status_wellformed CheckerOracle.llmError
      { wState with interactions :=
          [{ timestamp := "t0", agent_message := "q", student_response := some "idk",
             understanding_status := none }] }).2.2.1
      { timestamp := "t0", agent_message := "q", student_response := some "idk",
        understanding_status := none } rfl

end SimTeach
